import Mathlib

/-!
Verification of the SKAG_MedTech (AdaptiveCare) hospital patient-flow system.

The repository's source tree contains the React dashboard components
(PatientQueue.tsx, PatientDetailPanel.tsx, CapacityCard.tsx and a simulation
control panel).  The decision core described by the design document — event
bus, state store, the four agents and the MCDA engine — is backend code that
is not part of the available sources; those parts are modelled here from the
design document, each such definition carrying a doc comment that says so.
The frontend helpers are embedded directly from the TypeScript sources.
-/

/- ===================== State Store: units and deltas (C1) ================ -/

/-- Modelled from the spec: the backend State Store and its Unit entity are
missing from the source tree.  A Unit carries a total bed count, the currently
available beds and an available staff count (design document section 3). -/
structure HospitalUnit where
  total_beds : Int
  available_beds : Int
  available_staff : Int
deriving Repr, DecidableEq

/-- Modelled from the spec: outcome of the unit-delta primitive — either the
updated unit or a CapacityViolation signal. -/
inductive DeltaResult where
  | ok (u : HospitalUnit)
  | capacityViolation
deriving Repr, DecidableEq

/-- Modelled from the spec: apply_unit_delta is the only unit-mutation
primitive; it checks-then-sets atomically: if the resulting available bed
count would leave the interval from 0 to total_beds the delta is rejected
with a CapacityViolation and nothing is applied, otherwise both the bed and
staff deltas are applied together. -/
def apply_unit_delta (u : HospitalUnit) (bed_delta staff_delta : Int) : DeltaResult :=
  let newBeds := u.available_beds + bed_delta
  if 0 ≤ newBeds ∧ newBeds ≤ u.total_beds then
    DeltaResult.ok { u with
      available_beds := newBeds
      available_staff := u.available_staff + staff_delta }
  else
    DeltaResult.capacityViolation

/-- Modelled from the spec: the store keeps the old unit when a delta is
rejected (rejected means logged, not applied). -/
def runDelta (u : HospitalUnit) (d : Int × Int) : HospitalUnit :=
  match apply_unit_delta u d.1 d.2 with
  | DeltaResult.ok u2 => u2
  | DeltaResult.capacityViolation => u

/-- Modelled from the spec: run a whole sequence of unit-delta operations. -/
def runDeltas (u : HospitalUnit) (ds : List (Int × Int)) : HospitalUnit :=
  ds.foldl runDelta u

/-- Modelled from the spec: the bed-count invariant of a Unit. -/
def bedInvariant (u : HospitalUnit) : Prop :=
  0 ≤ u.available_beds ∧ u.available_beds ≤ u.total_beds

instance (u : HospitalUnit) : Decidable (bedInvariant u) := by
  unfold bedInvariant; infer_instance

/- ===================== Risk Agent: trajectory (C4) ======================= -/

/-- Trajectory labels of a patient's risk trend (design document section 3). -/
inductive Trajectory where
  | improving
  | stable
  | deteriorating
  | critical
deriving Repr, DecidableEq

/-- Modelled from the spec: the Risk Agent's trajectory classification is
missing from the source tree.  Scores are integers in the range 0 to 100.
The classification compares the new composite score with the immediately
preceding one using fixed deltas: a rise of at least 20 or a score at or
above the critical threshold yields critical, a rise of at least 10 yields
deteriorating, a fall of at least 10 yields improving, anything else is
stable; a first-ever assessment has no prior and defaults to stable. -/
def classifyTrajectory (critThreshold : Int) (prev : Option Int) (newScore : Int) :
    Trajectory :=
  match prev with
  | none => Trajectory.stable
  | some p =>
      let d := newScore - p
      if 20 ≤ d ∨ critThreshold ≤ newScore then Trajectory.critical
      else if 10 ≤ d then Trajectory.deteriorating
      else if d ≤ -10 then Trajectory.improving
      else Trajectory.stable

/- ===================== Frontend: patient display (C8, C9, C10) =========== -/

/-- The Patient record as used by the dashboard components: risk_score may be
absent (null/undefined in TypeScript), is_critical is a flag, acuity_level is
an integer. -/
structure Patient where
  id : String
  risk_score : Option ℚ
  is_critical : Bool
  acuity_level : Int
deriving Repr, DecidableEq

/-- The dashboard components read the risk score with a null-coalescing
default of 0 (risk_score ?? 0). -/
def riskOf (p : Patient) : ℚ := p.risk_score.getD 0

namespace PatientQueue

/-- Embeds getRiskColor from PatientQueue.tsx. -/
def getRiskColor (score : ℚ) : String :=
  if 80 ≤ score then "bg-red-500"
  else if 60 ≤ score then "bg-orange-500"
  else if 40 ≤ score then "bg-yellow-500"
  else "bg-green-500"

/-- Embeds getAcuityColor from PatientQueue.tsx: a switch with cases for
levels 1 to 4 and a default of gray; there is no case for level 5. -/
def getAcuityColor (level : Int) : String :=
  if level = 1 then "bg-red-500 text-white"
  else if level = 2 then "bg-orange-500 text-white"
  else if level = 3 then "bg-yellow-500 text-black"
  else if level = 4 then "bg-green-500 text-white"
  else "bg-gray-500 text-white"

/-- Embeds the isCritical computation of PatientCard in PatientQueue.tsx:
patient.is_critical or riskScore at least 80, where riskScore is
risk_score ?? 0. -/
def isCritical (p : Patient) : Bool :=
  p.is_critical || decide (80 ≤ riskOf p)

/-- Comparator used by PatientQueue.tsx line 107: sort by risk score,
highest first. -/
def byRiskDesc (a b : Patient) : Prop := riskOf b ≤ riskOf a

instance : DecidableRel byRiskDesc := fun a b =>
  inferInstanceAs (Decidable (riskOf b ≤ riskOf a))

instance : IsTotal Patient byRiskDesc :=
  ⟨fun a b => le_total (riskOf b) (riskOf a)⟩

instance : IsTrans Patient byRiskDesc :=
  ⟨fun _ _ _ h1 h2 => le_trans h2 h1⟩

/-- Embeds the sortedPatients computation of PatientQueue.tsx: the component
spreads the patients prop into a fresh array and sorts that copy with the
descending-risk comparator, so the caller's array is untouched and the
rendered list is the sorted copy. -/
def sortedPatients (ps : List Patient) : List Patient :=
  ps.insertionSort byRiskDesc

end PatientQueue

namespace PatientDetailPanel

/-- Embeds getAcuityLabel from PatientDetailPanel.tsx. -/
def getAcuityLabel (level : Int) : String :=
  if level = 1 then "Resuscitation"
  else if level = 2 then "Emergent"
  else if level = 3 then "Urgent"
  else if level = 4 then "Less Urgent"
  else if level = 5 then "Non-Urgent"
  else "Acuity " ++ toString level

/-- Embeds getAcuityColor from PatientDetailPanel.tsx: a switch with cases
for all of levels 1 to 5 and a gray default. -/
def getAcuityColor (level : Int) : String :=
  if level = 1 then "bg-red-600"
  else if level = 2 then "bg-orange-500"
  else if level = 3 then "bg-yellow-500"
  else if level = 4 then "bg-green-500"
  else if level = 5 then "bg-blue-500"
  else "bg-gray-500"

/-- Embeds the isCritical computation of PatientDetailPanel.tsx:
patient.is_critical or riskScore at least 80, where riskScore is
risk_score ?? 0. -/
def isCritical (p : Patient) : Bool :=
  p.is_critical || decide (80 ≤ riskOf p)

end PatientDetailPanel

/- ===================== Risk Agent: vitals and confidence (C5) ============ -/

/-- Modelled from the spec: a vitals-update event for one patient; each of the
six expected vital fields may be missing (the agent must be resilient to
partial vitals).  Measurements are integers (temperature in whole degrees
Celsius). -/
structure VitalsEvent where
  heart_rate : Option Int
  blood_pressure : Option Int
  oxygen_saturation : Option Int
  respiratory_rate : Option Int
  temperature : Option Int
  glasgow_coma_scale : Option Int
deriving Repr, DecidableEq

/-- Number of expected vital fields present in the event. -/
def presentCount (v : VitalsEvent) : Nat :=
  (if v.heart_rate.isSome then 1 else 0) +
  (if v.blood_pressure.isSome then 1 else 0) +
  (if v.oxygen_saturation.isSome then 1 else 0) +
  (if v.respiratory_rate.isSome then 1 else 0) +
  (if v.temperature.isSome then 1 else 0) +
  (if v.glasgow_coma_scale.isSome then 1 else 0)

/-- Normalized quantities are represented in fixed point: the unit interval
becomes the integer range 0 to 1000 (per mille). -/
def clampK (x : Int) : Int := max 0 (min 1000 x)

/-- Modelled from the spec: normalized deviation of a heart-rate sample. -/
def hrDev (x : Int) : Int := clampK (|x - 80| * 1000 / 80)

/-- Modelled from the spec: normalized deviation of a blood-pressure sample. -/
def bpDev (x : Int) : Int := clampK (|x - 120| * 1000 / 120)

/-- Modelled from the spec: normalized deviation of an oxygen-saturation
sample (lower is worse). -/
def spo2Dev (x : Int) : Int := clampK ((98 - x) * 1000 / 28)

/-- Modelled from the spec: normalized deviation of a respiratory-rate
sample. -/
def rrDev (x : Int) : Int := clampK (|x - 16| * 1000 / 16)

/-- Modelled from the spec: normalized deviation of a temperature sample. -/
def tempDev (x : Int) : Int := clampK (|x - 37| * 1000 / 4)

/-- Modelled from the spec: normalized deviation of a Glasgow Coma Scale
sample (lower is worse). -/
def gcsDev (x : Int) : Int := clampK ((15 - x) * 1000 / 12)

/-- Deviation contribution of one optional field: a missing field contributes
nothing. -/
def fieldDev (f : Int → Int) (o : Option Int) : Int :=
  match o with
  | none => 0
  | some x => f x

/-- Modelled from the spec: the composite severity in the range 0 to 100,
combining the normalized deviations of the present vital fields and
averaging over how many were present (missing fields never raise an error,
they are simply left out). -/
def compositeScore (v : VitalsEvent) : Int :=
  let s := fieldDev hrDev v.heart_rate + fieldDev bpDev v.blood_pressure +
    fieldDev spo2Dev v.oxygen_saturation + fieldDev rrDev v.respiratory_rate +
    fieldDev tempDev v.temperature + fieldDev gcsDev v.glasgow_coma_scale
  if presentCount v = 0 then 0 else s / (10 * presentCount v)

/-- Modelled from the spec: confidence reflects how many of the six expected
vital fields were present. -/
def confidenceOf (v : VitalsEvent) : ℚ := presentCount v / 6

/-- Modelled from the spec: the Risk Agent's published assessment — score,
trajectory, confidence. -/
structure RiskAssessment where
  score : Int
  traj : Trajectory
  confidence : ℚ
deriving Repr, DecidableEq

/-- Modelled from the spec: processing a vitals event is total — the agent
always produces a RiskAssessment, whatever fields are missing. -/
def assessRiskEvent (critThreshold : Int) (prev : Option Int) (v : VitalsEvent) :
    RiskAssessment :=
  let s := compositeScore v
  { score := s
    traj := classifyTrajectory critThreshold prev s
    confidence := confidenceOf v }

/- ===================== Flow Agent: MCDA engine (C2) ====================== -/

/-- Modelled from the spec: a candidate unit as the MCDA engine sees it. -/
structure CandidateUnit where
  unitId : String
  total_beds : Int
  available_beds : Int
  available_staff : Int
  staff_threshold : Int
deriving Repr, DecidableEq

/-- Modelled from the spec: the patient context the Flow Agent scores
against — latest risk score, trajectory, wait time and acuity level. -/
structure FlowPatient where
  risk : Int
  traj : Trajectory
  wait_minutes : Int
  acuity : Int
deriving Repr, DecidableEq

/-- Modelled from the spec: the configured linear-combination weights of the
four sub-scores in per mille (default 0.4 / 0.3 / 0.2 / 0.1 becomes
400 / 300 / 200 / 100, summing to 1000). -/
structure MCDAWeights where
  safety : Int
  urgency : Int
  capacity : Int
  resource : Int
deriving Repr, DecidableEq

/-- Modelled from the spec: the per-candidate score set — four normalized
sub-scores (per mille) for one (patient, candidate-unit) pair. -/
structure MCDAScoreSet where
  unitId : String
  safety : Int
  urgency : Int
  capacityFit : Int
  resourceImpact : Int
deriving Repr, DecidableEq

/-- Modelled from the spec: safety sub-score derived from risk score and
trajectory — higher risk and a worsening trajectory raise the urgency to
move the patient to a higher-acuity unit. -/
def safetyScore (risk : Int) (t : Trajectory) : Int :=
  let base := clampK (risk * 10)
  match t with
  | Trajectory.critical => clampK (base + 200)
  | Trajectory.deteriorating => clampK (base + 100)
  | Trajectory.stable => base
  | Trajectory.improving => clampK (base - 100)

/-- Modelled from the spec: urgency sub-score derived from wait time and
acuity level (1 is most severe). -/
def urgencyScore (waitMinutes acuity : Int) : Int :=
  clampK (waitMinutes * 1000 / 240) / 2 + clampK ((6 - acuity) * 200) / 2

/-- Modelled from the spec: capacity-fit sub-score derived from the candidate
unit's occupancy — available beds and staff headroom increase the score, and
a full unit scores exactly 0. -/
def capacityFitScore (u : CandidateUnit) : Int :=
  if u.available_beds ≤ 0 ∨ u.total_beds ≤ 0 then 0
  else clampK (u.available_beds * 1000 / u.total_beds) / 2 +
    clampK (u.available_staff * 1000 / (u.staff_threshold + 1)) / 2

/-- Modelled from the spec: resource-impact sub-score penalizing moves into a
unit already near its staffing threshold. -/
def resourceImpactScore (u : CandidateUnit) : Int :=
  if u.available_staff ≤ u.staff_threshold then 1000
  else clampK (u.staff_threshold * 1000 / u.available_staff)

/-- Modelled from the spec: evaluate one candidate unit for the triggering
patient, producing its MCDAScoreSet. -/
def scoreCandidate (p : FlowPatient) (u : CandidateUnit) : MCDAScoreSet :=
  { unitId := u.unitId
    safety := safetyScore p.risk p.traj
    urgency := urgencyScore p.wait_minutes p.acuity
    capacityFit := capacityFitScore u
    resourceImpact := resourceImpactScore u }

/-- Modelled from the spec: the weighted total of a score set (the per-mille
weights make the total a plain integer linear combination; comparisons are
unaffected by the common scale factor). -/
def weightedTotal (w : MCDAWeights) (s : MCDAScoreSet) : Int :=
  w.safety * s.safety + w.urgency * s.urgency +
    w.capacity * s.capacityFit + w.resource * s.resourceImpact

/-- Modelled from the spec: the ranking order of the recommendation list —
higher weighted total first; an exact tie prefers the candidate with strictly
higher capacity-fit, then the one with lower resource-impact. -/
def rankBefore (w : MCDAWeights) (a b : MCDAScoreSet) : Prop :=
  weightedTotal w b < weightedTotal w a ∨
    (weightedTotal w a = weightedTotal w b ∧
      (b.capacityFit < a.capacityFit ∨
        (a.capacityFit = b.capacityFit ∧ a.resourceImpact ≤ b.resourceImpact)))

instance (w : MCDAWeights) : DecidableRel (rankBefore w) := fun a b => by
  unfold rankBefore; infer_instance

instance (w : MCDAWeights) : IsTotal MCDAScoreSet (rankBefore w) := by
  constructor
  intro a b
  rcases lt_trichotomy (weightedTotal w a) (weightedTotal w b) with h | h | h
  · exact Or.inr (Or.inl h)
  · rcases lt_trichotomy a.capacityFit b.capacityFit with hc | hc | hc
    · exact Or.inr (Or.inr ⟨h.symm, Or.inl hc⟩)
    · rcases le_total a.resourceImpact b.resourceImpact with hr | hr
      · exact Or.inl (Or.inr ⟨h, Or.inr ⟨hc, hr⟩⟩)
      · exact Or.inr (Or.inr ⟨h.symm, Or.inr ⟨hc.symm, hr⟩⟩)
    · exact Or.inl (Or.inr ⟨h, Or.inl hc⟩)
  · exact Or.inl (Or.inl h)

instance (w : MCDAWeights) : IsTrans MCDAScoreSet (rankBefore w) := by
  constructor
  intro a b c hab hbc
  rcases hab with h1 | ⟨e1, h1⟩
  · rcases hbc with h2 | ⟨e2, _⟩
    · exact Or.inl (lt_trans h2 h1)
    · exact Or.inl (e2 ▸ h1)
  · rcases hbc with h2 | ⟨e2, h2⟩
    · exact Or.inl (by rw [e1]; exact h2)
    · refine Or.inr ⟨e1.trans e2, ?_⟩
      rcases h1 with hc1 | ⟨ec1, hr1⟩
      · rcases h2 with hc2 | ⟨ec2, _⟩
        · exact Or.inl (lt_trans hc2 hc1)
        · exact Or.inl (ec2 ▸ hc1)
      · rcases h2 with hc2 | ⟨ec2, hr2⟩
        · exact Or.inl (by rw [ec1]; exact hc2)
        · exact Or.inr ⟨ec1.trans ec2, le_trans hr1 hr2⟩

/-- Modelled from the spec: the Flow Agent's full decision cycle for one
triggering patient — score every eligible candidate unit, drop the full
units (capacity-fit 0 is a hard exclusion), and rank the rest by weighted
total descending with the documented tie-break. -/
def flowRecommend (w : MCDAWeights) (p : FlowPatient)
    (units : List CandidateUnit) : List MCDAScoreSet :=
  (((units.map (scoreCandidate p)).filter
      (fun s => decide (s.capacityFit ≠ 0))).insertionSort (rankBefore w))

/- ===================== Escalation Agent: threshold policy (C3) =========== -/

/-- The action of a Decision record (design document section 3). -/
inductive DecisionAction where
  | escalate
  | observe
  | delay
  | transfer
  | admitted
deriving Repr, DecidableEq

/-- Modelled from the spec: the escalation thresholds are configuration.
The escalate threshold lives on the weighted-total scale; the risk
thresholds live on the 0-to-100 risk-score scale. -/
structure EscalationConfig where
  escalate_threshold : Int
  high_risk_threshold : Int
  critical_risk_threshold : Int
deriving Repr, DecidableEq

/-- Modelled from the spec: the Escalation Agent's threshold policy applied to
the ranked recommendation list and the patient's risk score.  An empty list
with risk at or above the critical threshold is a capacity emergency and
escalates; a top weighted total at or above the escalate threshold escalates;
a risk at or above the high threshold (with the total below the escalate
threshold) observes; otherwise the action follows the recommended unit type
(transfer into an ICU candidate, admit elsewhere, delay with no signal). -/
def escalationAction (cfg : EscalationConfig) (w : MCDAWeights)
    (recs : List MCDAScoreSet) (risk : Int) (topUnitType : String) :
    DecisionAction :=
  match recs with
  | [] =>
      if cfg.critical_risk_threshold ≤ risk then DecisionAction.escalate
      else DecisionAction.delay
  | top :: _ =>
      if cfg.escalate_threshold ≤ weightedTotal w top then DecisionAction.escalate
      else if cfg.high_risk_threshold ≤ risk then DecisionAction.observe
      else if topUnitType = "ICU" then DecisionAction.transfer
      else DecisionAction.admitted

/- ===================== Capacity Agent: snapshot and forecast (C6) ======== -/

/-- Modelled from the spec: a Unit as stored by the State Store and read by
the Capacity Agent: bed counts and the pending-discharge count. -/
structure StoreUnit where
  id : String
  total_beds : Nat
  available_beds : Nat
  pending_discharges : Nat
deriving Repr, DecidableEq

/-- Modelled from the spec: the short-horizon discharge forecast — a
deterministic function of the current pending-discharge count and the
configured trend window: the pending discharges expected to complete within
the window, capped by the window length. -/
def forecastDischarges (pending window : Nat) : Nat :=
  min pending window

/-- Modelled from the spec: the per-unit part of a CapacitySnapshot. -/
structure UnitAssessment where
  id : String
  occupied : Nat
  available : Nat
  predicted_discharges : Nat
deriving Repr, DecidableEq

/-- Modelled from the spec: a CapacitySnapshot — per-unit assessments plus the
hospital-wide aggregate, recomputed wholesale from the store. -/
structure CapacitySnapshot where
  perUnit : List UnitAssessment
  totalBeds : Nat
  totalAvailable : Nat
deriving Repr, DecidableEq

/-- Modelled from the spec: assess one unit for the snapshot. -/
def assessUnit (window : Nat) (u : StoreUnit) : UnitAssessment :=
  { id := u.id
    occupied := u.total_beds - u.available_beds
    available := u.available_beds
    predicted_discharges := forecastDischarges u.pending_discharges window }

/-- Modelled from the spec: recompute the whole CapacitySnapshot from the
current Unit set of the State Store (wholesale, no incremental merge). -/
def computeSnapshot (window : Nat) (units : List StoreUnit) : CapacitySnapshot :=
  { perUnit := units.map (assessUnit window)
    totalBeds := (units.map (fun u => u.total_beds)).sum
    totalAvailable := (units.map (fun u => u.available_beds)).sum }

/- ===================== Event Bus (C7) ==================================== -/

/-- Modelled from the spec: one delivery of a payload to one handler; the
errored flag records that this handler raised and its error was caught. -/
structure Delivery where
  topic : String
  handler : Nat
  payload : String
  errored : Bool
deriving Repr, DecidableEq

/-- Modelled from the spec: the bus keeps, per topic, the handlers in
subscription order; the whole bus is the list of (topic, handler)
subscriptions in subscription order. -/
def subscribersOf (bus : List (String × Nat)) (t : String) : List Nat :=
  (bus.filter (fun s => decide (s.1 = t))).map (fun s => s.2)

/-- Modelled from the spec: hand the payload to each handler in turn; hfail
says whether a given handler raises on a given payload; a raised error is
caught and recorded, and delivery continues with the remaining handlers. -/
def runHandlers (hfail : Nat → String → Bool) (hs : List Nat)
    (t payload : String) : List Delivery :=
  match hs with
  | [] => []
  | h :: rest =>
      { topic := t, handler := h, payload := payload, errored := hfail h payload } ::
        runHandlers hfail rest t payload

/-- Modelled from the spec: publish delivers the payload to every handler
currently subscribed to the topic, in subscription order. -/
def publishDeliveries (hfail : Nat → String → Bool) (bus : List (String × Nat))
    (t payload : String) : List Delivery :=
  runHandlers hfail (subscribersOf bus t) t payload

/-- Modelled from the spec: process a sequence of publishes in order; the
subscription table is unchanged by publishing, so every publish sees the same
handlers. -/
def runBus (hfail : Nat → String → Bool) (bus : List (String × Nat)) :
    List (String × String) → List Delivery
  | [] => []
  | (t, payload) :: rest =>
      publishDeliveries hfail bus t payload ++ runBus hfail bus rest

/- ===================== Theorems ========================================== -/

theorem runDelta_bedInvariant (u : HospitalUnit) (h : bedInvariant u)
    (d : Int × Int) : bedInvariant (runDelta u d) := by
  by_cases hc : 0 ≤ u.available_beds + d.1 ∧ u.available_beds + d.1 ≤ u.total_beds
  · simp only [runDelta, apply_unit_delta, hc, if_true, if_pos]
    exact ⟨hc.1, hc.2⟩
  · simp only [runDelta, apply_unit_delta, hc, if_false, if_neg, not_false_iff]
    exact h

theorem runDeltas_bedInvariant (u : HospitalUnit) (h : bedInvariant u)
    (ds : List (Int × Int)) : bedInvariant (runDeltas u ds) := by
  induction ds generalizing u with
  | nil => exact h
  | cons d rest ih =>
      have : runDeltas u (d :: rest) = runDeltas (runDelta u d) rest := rfl
      rw [this]
      exact ih (runDelta u d) (runDelta_bedInvariant u h d)

/-- C1: starting from a Unit satisfying the bed invariant, any sequence of
apply_unit_delta operations keeps available_beds inside the interval from 0
to total_beds, and any single delta that would violate the bound is rejected
with a CapacityViolation while the Unit is left completely unchanged. -/
theorem unit_delta_invariant (u : HospitalUnit) (h : bedInvariant u)
    (ds : List (Int × Int)) :
    bedInvariant (runDeltas u ds) ∧
    (∀ bd sd : Int,
      ¬ (0 ≤ u.available_beds + bd ∧ u.available_beds + bd ≤ u.total_beds) →
        apply_unit_delta u bd sd = DeltaResult.capacityViolation ∧
        runDelta u (bd, sd) = u) := by
  refine ⟨runDeltas_bedInvariant u h ds, ?_⟩
  intro bd sd hb
  constructor
  · simp only [apply_unit_delta, hb, if_false, if_neg, not_false_iff]
  · simp only [runDelta, apply_unit_delta, hb, if_false, if_neg, not_false_iff]

/-- Witness for C1 at a concrete unit and delta sequence. -/
theorem unit_delta_invariant_witness :
    bedInvariant (runDeltas ⟨10, 1, 5⟩ [(-1, 0), (2, 1), (-5, 0), (20, 0)]) ∧
    (apply_unit_delta ⟨10, 1, 5⟩ (-2) 0 = DeltaResult.capacityViolation ∧
      runDelta ⟨10, 1, 5⟩ (-2, 0) = ⟨10, 1, 5⟩) :=
  have m := unit_delta_invariant ⟨10, 1, 5⟩ (by decide) [(-1, 0), (2, 1), (-5, 0), (20, 0)]
  ⟨m.1, m.2 (-2) 0 (by decide)⟩

/-- C4: trajectory classification is a pure function of (previous score or
none, new score); a first-ever assessment classifies as stable; with a prior,
a rise of at least 20 or a score at or above the critical threshold gives
critical, otherwise a rise of at least 10 gives deteriorating, otherwise a
fall of at least 10 gives improving, otherwise stable. -/
theorem trajectory_classification (c p n : Int) :
    classifyTrajectory c none n = Trajectory.stable ∧
    (∀ (q1 q2 : Option Int) (m1 m2 : Int), q1 = q2 → m1 = m2 →
      classifyTrajectory c q1 m1 = classifyTrajectory c q2 m2) ∧
    ((20 ≤ n - p ∨ c ≤ n) →
      classifyTrajectory c (some p) n = Trajectory.critical) ∧
    (¬ (20 ≤ n - p ∨ c ≤ n) → 10 ≤ n - p →
      classifyTrajectory c (some p) n = Trajectory.deteriorating) ∧
    (¬ (20 ≤ n - p ∨ c ≤ n) → ¬ (10 ≤ n - p) → n - p ≤ -10 →
      classifyTrajectory c (some p) n = Trajectory.improving) ∧
    (¬ (20 ≤ n - p ∨ c ≤ n) → ¬ (10 ≤ n - p) → ¬ (n - p ≤ -10) →
      classifyTrajectory c (some p) n = Trajectory.stable) := by
  refine ⟨rfl, ?_, ?_, ?_, ?_, ?_⟩
  · rintro q1 q2 m1 m2 rfl rfl
    rfl
  · intro h1
    simp only [classifyTrajectory, h1, if_true, if_pos]
  · intro h1 h2
    simp only [classifyTrajectory, h1, h2, if_true, if_false, if_pos, if_neg,
      not_false_iff]
  · intro h1 h2 h3
    simp only [classifyTrajectory, h1, h2, h3, if_true, if_false, if_pos, if_neg,
      not_false_iff]
  · intro h1 h2 h3
    simp only [classifyTrajectory, h1, h2, h3, if_false, if_neg, not_false_iff]

/-- Witness for C4 exercising every branch at concrete scores. -/
theorem trajectory_classification_witness :
    classifyTrajectory 80 (some 10) 40 = Trajectory.critical ∧
    classifyTrajectory 80 (some 10) 21 = Trajectory.deteriorating ∧
    classifyTrajectory 80 (some 50) 30 = Trajectory.improving ∧
    classifyTrajectory 80 (some 50) 55 = Trajectory.stable :=
  ⟨(trajectory_classification 80 10 40).2.2.1 (by decide),
   (trajectory_classification 80 10 21).2.2.2.1 (by decide) (by decide),
   (trajectory_classification 80 50 30).2.2.2.2.1 (by decide) (by decide) (by decide),
   (trajectory_classification 80 50 55).2.2.2.2.2 (by decide) (by decide) (by decide)⟩

/-- C5: a vitals event with missing fields still yields a RiskAssessment (the
agent is total, it never raises), the score agrees with a full-vitals
assessment of the same numeric severity, and the confidence is strictly lower
than that full-vitals assessment's confidence. -/
theorem risk_partial_vitals (c : Int) (prev : Option Int) (v vfull : VitalsEvent)
    (hmiss : presentCount v < 6) (hfull : presentCount vfull = 6)
    (hsev : compositeScore v = compositeScore vfull) :
    (∃ a : RiskAssessment, assessRiskEvent c prev v = a) ∧
    (assessRiskEvent c prev v).score = (assessRiskEvent c prev vfull).score ∧
    (assessRiskEvent c prev v).confidence <
      (assessRiskEvent c prev vfull).confidence := by
  refine ⟨⟨_, rfl⟩, ?_, ?_⟩
  · simp only [assessRiskEvent, hsev]
  · simp only [assessRiskEvent, confidenceOf]
    rw [hfull]
    have h6 : ((presentCount v : ℚ)) < ((6 : ℕ) : ℚ) := by exact_mod_cast hmiss
    have hpos : (0 : ℚ) < 6 := by norm_num
    have := (div_lt_div_iff_of_pos_right hpos).mpr h6
    simpa using this

/-- Witness for C5: only heart rate and oxygen saturation present, compared
with a full-vitals event of the same severity. -/
theorem risk_partial_vitals_witness :
    (∃ a : RiskAssessment,
      assessRiskEvent 80 none ⟨some 80, none, some 98, none, none, none⟩ = a) ∧
    (assessRiskEvent 80 none ⟨some 80, none, some 98, none, none, none⟩).score =
      (assessRiskEvent 80 none
        ⟨some 80, some 120, some 98, some 16, some 37, some 15⟩).score ∧
    (assessRiskEvent 80 none ⟨some 80, none, some 98, none, none, none⟩).confidence <
      (assessRiskEvent 80 none
        ⟨some 80, some 120, some 98, some 16, some 37, some 15⟩).confidence :=
  risk_partial_vitals 80 none _ _ (by decide) (by decide) (by decide)

/-- C6: recomputing a CapacitySnapshot from the same unmodified store is
deterministic and idempotent, and the short-horizon discharge forecast is a
deterministic function of the pending-discharge count and the trend window,
monotone in both. -/
theorem capacity_recompute (window : Nat) (units : List StoreUnit)
    (p1 p2 w1 w2 : Nat) :
    computeSnapshot window units = computeSnapshot window units ∧
    (∀ us1 us2 : List StoreUnit, us1 = us2 →
      computeSnapshot window us1 = computeSnapshot window us2) ∧
    (∀ q1 q2 r1 r2 : Nat, q1 = q2 → r1 = r2 →
      forecastDischarges q1 r1 = forecastDischarges q2 r2) ∧
    (p1 ≤ p2 → forecastDischarges p1 w1 ≤ forecastDischarges p2 w1) ∧
    (w1 ≤ w2 → forecastDischarges p1 w1 ≤ forecastDischarges p1 w2) := by
  refine ⟨rfl, ?_, ?_, ?_, ?_⟩
  · rintro us1 us2 rfl
    rfl
  · rintro q1 q2 r1 r2 rfl rfl
    rfl
  · intro h
    simp only [forecastDischarges]
    exact min_le_min h le_rfl
  · intro h
    simp only [forecastDischarges]
    exact min_le_min le_rfl h

/-- Witness for C6 on concrete pending counts and windows. -/
theorem capacity_recompute_witness :
    forecastDischarges 2 5 ≤ forecastDischarges 4 5 ∧
    forecastDischarges 2 3 ≤ forecastDischarges 2 5 :=
  ⟨(capacity_recompute 5 [] 2 4 5 5).2.2.2.1 (by decide),
   (capacity_recompute 3 [] 2 2 3 5).2.2.2.2 (by decide)⟩

/-- C3: the Escalation Agent's threshold policy — a top weighted total at or
above the escalate threshold escalates; an empty recommendation list with
risk at or above the critical threshold escalates (never delays); risk at or
above the high threshold with the total below the escalate threshold
observes. -/
theorem escalation_policy (cfg : EscalationConfig) (w : MCDAWeights)
    (recs : List MCDAScoreSet) (risk : Int) (ut : String) :
    (∀ top rest, recs = top :: rest →
      cfg.escalate_threshold ≤ weightedTotal w top →
        escalationAction cfg w recs risk ut = DecisionAction.escalate) ∧
    (recs = [] → cfg.critical_risk_threshold ≤ risk →
      escalationAction cfg w recs risk ut = DecisionAction.escalate ∧
      escalationAction cfg w recs risk ut ≠ DecisionAction.delay) ∧
    (∀ top rest, recs = top :: rest → cfg.high_risk_threshold ≤ risk →
      weightedTotal w top < cfg.escalate_threshold →
        escalationAction cfg w recs risk ut = DecisionAction.observe) := by
  refine ⟨?_, ?_, ?_⟩
  · rintro top rest rfl h
    simp [escalationAction, h]
  · rintro rfl h
    refine ⟨by simp [escalationAction, h], ?_⟩
    simp [escalationAction, h]
  · rintro top rest rfl hr hlt
    simp [escalationAction, not_le.mpr hlt, hr]

/-- Witness for C3 exercising all three policy rules at concrete inputs. -/
theorem escalation_policy_witness :
    escalationAction ⟨300000, 60, 85⟩ ⟨400, 300, 200, 100⟩
      [⟨"ICU", 800, 700, 500, 300⟩] 90 "ICU" = DecisionAction.escalate ∧
    (escalationAction ⟨300000, 60, 85⟩ ⟨400, 300, 200, 100⟩ [] 90 "ICU" =
        DecisionAction.escalate ∧
      escalationAction ⟨300000, 60, 85⟩ ⟨400, 300, 200, 100⟩ [] 90 "ICU" ≠
        DecisionAction.delay) ∧
    escalationAction ⟨300000, 60, 85⟩ ⟨400, 300, 200, 100⟩
      [⟨"Ward", 100, 100, 100, 100⟩] 70 "Ward" = DecisionAction.observe :=
  ⟨(escalation_policy ⟨300000, 60, 85⟩ ⟨400, 300, 200, 100⟩
      [⟨"ICU", 800, 700, 500, 300⟩] 90 "ICU").1
      ⟨"ICU", 800, 700, 500, 300⟩ [] rfl (by decide),
   (escalation_policy ⟨300000, 60, 85⟩ ⟨400, 300, 200, 100⟩ [] 90 "ICU").2.1
      rfl (by decide),
   (escalation_policy ⟨300000, 60, 85⟩ ⟨400, 300, 200, 100⟩
      [⟨"Ward", 100, 100, 100, 100⟩] 70 "Ward").2.2
      ⟨"Ward", 100, 100, 100, 100⟩ [] rfl (by decide) (by decide)⟩

theorem rankBefore_total_le (w : MCDAWeights) (a b : MCDAScoreSet)
    (h : rankBefore w a b) : weightedTotal w b ≤ weightedTotal w a := by
  rcases h with h | ⟨e, _⟩
  · exact le_of_lt h
  · exact e.ge

/-- C2: the Flow Agent scores every candidate unit, the published ranked list
is exactly the scored candidates with nonzero capacity-fit (so every eligible
candidate with headroom appears and no capacity-fit-0 unit ever appears),
and the list is sorted by weighted total descending, ties broken by strictly
higher capacity-fit and then lower resource-impact. -/
theorem mcda_ranking (w : MCDAWeights) (p : FlowPatient)
    (units : List CandidateUnit) :
    (flowRecommend w p units).Perm
      ((units.map (scoreCandidate p)).filter
        (fun s => decide (s.capacityFit ≠ 0))) ∧
    List.Pairwise (rankBefore w) (flowRecommend w p units) ∧
    List.Pairwise (fun a b => weightedTotal w b ≤ weightedTotal w a)
      (flowRecommend w p units) ∧
    (∀ s ∈ flowRecommend w p units, s.capacityFit ≠ 0) ∧
    (∀ u ∈ units, capacityFitScore u ≠ 0 →
      scoreCandidate p u ∈ flowRecommend w p units) := by
  have hperm := List.perm_insertionSort (rankBefore w)
    ((units.map (scoreCandidate p)).filter (fun s => decide (s.capacityFit ≠ 0)))
  have hsorted := List.sorted_insertionSort (rankBefore w)
    ((units.map (scoreCandidate p)).filter (fun s => decide (s.capacityFit ≠ 0)))
  refine ⟨hperm, hsorted, hsorted.imp (fun hab => rankBefore_total_le w _ _ hab),
    ?_, ?_⟩
  · intro s hs
    have hmem : s ∈ (units.map (scoreCandidate p)).filter
        (fun s => decide (s.capacityFit ≠ 0)) := hperm.subset hs
    have hkeep := List.of_mem_filter hmem
    simpa using hkeep
  · intro u hu hcf
    have hm : scoreCandidate p u ∈ units.map (scoreCandidate p) :=
      List.mem_map_of_mem (scoreCandidate p) hu
    have hmem : scoreCandidate p u ∈ (units.map (scoreCandidate p)).filter
        (fun s => decide (s.capacityFit ≠ 0)) := by
      refine List.mem_filter.mpr ⟨hm, ?_⟩
      simpa [scoreCandidate] using hcf
    exact hperm.mem_iff.mpr hmem

/-- Witness for C2: two candidate units, one full (capacity-fit 0) and one
with headroom; the open unit's score set appears in the recommendation. -/
theorem mcda_ranking_witness :
    scoreCandidate ⟨90, Trajectory.critical, 120, 2⟩ ⟨"ICU", 10, 2, 5, 2⟩ ∈
      flowRecommend ⟨400, 300, 200, 100⟩ ⟨90, Trajectory.critical, 120, 2⟩
        [⟨"ED", 10, 0, 5, 2⟩, ⟨"ICU", 10, 2, 5, 2⟩] :=
  (mcda_ranking ⟨400, 300, 200, 100⟩ ⟨90, Trajectory.critical, 120, 2⟩
      [⟨"ED", 10, 0, 5, 2⟩, ⟨"ICU", 10, 2, 5, 2⟩]).2.2.2.2
    ⟨"ICU", 10, 2, 5, 2⟩ (by decide) (by decide)

theorem runHandlers_map_handler (hfail : Nat → String → Bool) (hs : List Nat)
    (t pl : String) : (runHandlers hfail hs t pl).map Delivery.handler = hs := by
  induction hs with
  | nil => rfl
  | cons x rest ih => simp [runHandlers, ih]

theorem runHandlers_mem (hfail : Nat → String → Bool) (hs : List Nat)
    (t pl : String) (d : Delivery) (hd : d ∈ runHandlers hfail hs t pl) :
    d.topic = t ∧ d.payload = pl := by
  induction hs with
  | nil => cases hd
  | cons x rest ih =>
      rcases hd with _ | ⟨_, hd2⟩
      · exact ⟨rfl, rfl⟩
      · exact ih hd2

theorem runHandlers_core (hf1 hf2 : Nat → String → Bool) (hs : List Nat)
    (t pl : String) :
    (runHandlers hf1 hs t pl).map (fun d => (d.topic, d.handler, d.payload)) =
      (runHandlers hf2 hs t pl).map (fun d => (d.topic, d.handler, d.payload)) := by
  induction hs with
  | nil => rfl
  | cons x rest ih => simp [runHandlers, ih]

theorem runBus_append (hfail : Nat → String → Bool) (bus : List (String × Nat))
    (ps1 ps2 : List (String × String)) :
    runBus hfail bus (ps1 ++ ps2) =
      runBus hfail bus ps1 ++ runBus hfail bus ps2 := by
  induction ps1 with
  | nil => rfl
  | cons pr rest ih =>
      obtain ⟨t2, pl⟩ := pr
      simp [runBus, ih]

theorem runHandlers_filter_topic_handler (hfail : Nat → String → Bool)
    (hs : List Nat) (t2 pl t : String) (h : Nat) :
    (runHandlers hfail hs t2 pl).filter
        (fun d => decide (d.topic = t) && decide (d.handler = h)) =
      if t2 = t then
        (hs.filter (fun x => decide (x = h))).map
          (fun x => Delivery.mk t2 x pl (hfail x pl))
      else [] := by
  induction hs with
  | nil =>
      by_cases ht : t2 = t <;> simp [runHandlers, ht]
  | cons x rest ih =>
      by_cases ht : t2 = t
      · subst ht
        by_cases hx : x = h
        · subst hx
          simp [runHandlers, List.filter_cons, ih]
        · simp [runHandlers, List.filter_cons, hx, ih]
      · simp [runHandlers, List.filter_cons, ht, ih]

theorem runBus_fifo (hfail : Nat → String → Bool) (bus : List (String × Nat))
    (t : String) (h : Nat)
    (hsub : (subscribersOf bus t).filter (fun x => decide (x = h)) = [h])
    (pubs : List (String × String)) :
    ((runBus hfail bus pubs).filter
        (fun d => decide (d.topic = t) && decide (d.handler = h))).map
      Delivery.payload =
      (pubs.filter (fun pr => decide (pr.1 = t))).map Prod.snd := by
  induction pubs with
  | nil => rfl
  | cons pr rest ih =>
      obtain ⟨t2, pl⟩ := pr
      have hstep : runBus hfail bus ((t2, pl) :: rest) =
          publishDeliveries hfail bus t2 pl ++ runBus hfail bus rest := rfl
      rw [hstep, List.filter_append, List.map_append]
      unfold publishDeliveries
      rw [runHandlers_filter_topic_handler]
      by_cases ht : t2 = t
      · subst ht
        simp [hsub, List.filter_cons, ih]
      · simp [List.filter_cons, ht, ih]

/-- C7: publish hands the payload to every handler currently subscribed to
the topic, in subscription order; each delivery carries that topic and
payload; which handlers receive deliveries does not depend on which handlers
raise (a raised error is caught and recorded, delivery continues); publishing
never changes the subscription table, so later publishes deliver
independently; and for a handler subscribed once to a topic, the sequence of
payloads it receives on that topic equals the sequence published to that
topic, in order (FIFO per topic). -/
theorem event_bus_delivery (hfail hf2 : Nat → String → Bool)
    (bus : List (String × Nat)) (t pl : String)
    (pubs1 pubs2 : List (String × String)) (tt : String) (h : Nat) :
    (publishDeliveries hfail bus t pl).map Delivery.handler =
      subscribersOf bus t ∧
    (∀ d ∈ publishDeliveries hfail bus t pl, d.topic = t ∧ d.payload = pl) ∧
    ((publishDeliveries hfail bus t pl).map
        (fun d => (d.topic, d.handler, d.payload)) =
      (publishDeliveries hf2 bus t pl).map
        (fun d => (d.topic, d.handler, d.payload))) ∧
    runBus hfail bus (pubs1 ++ pubs2) =
      runBus hfail bus pubs1 ++ runBus hfail bus pubs2 ∧
    ((subscribersOf bus tt).filter (fun x => decide (x = h)) = [h] →
      ((runBus hfail bus pubs1).filter
          (fun d => decide (d.topic = tt) && decide (d.handler = h))).map
        Delivery.payload =
        (pubs1.filter (fun pr => decide (pr.1 = tt))).map Prod.snd) :=
  ⟨runHandlers_map_handler hfail (subscribersOf bus t) t pl,
   fun d hd => runHandlers_mem hfail (subscribersOf bus t) t pl d hd,
   runHandlers_core hfail hf2 (subscribersOf bus t) t pl,
   runBus_append hfail bus pubs1 pubs2,
   fun hsub => runBus_fifo hfail bus tt h hsub pubs1⟩

/-- Witness for C7: two handlers on topic risk and one on topic cap, every
handler raising on every payload; handler 2 still receives exactly the
payloads published on risk, in publish order. -/
theorem event_bus_delivery_witness :
    ((runBus (fun _x1 _x2 => true) [("risk", 1), ("risk", 2), ("cap", 3)]
        [("risk", "a"), ("cap", "b"), ("risk", "c")]).filter
        (fun d => decide (d.topic = "risk") && decide (d.handler = 2))).map
      Delivery.payload =
      (([("risk", "a"), ("cap", "b"), ("risk", "c")] :
          List (String × String)).filter
        (fun pr => decide (pr.1 = "risk"))).map Prod.snd :=
  (event_bus_delivery (fun _x1 _x2 => true) (fun _x1 _x2 => false)
      [("risk", 1), ("risk", 2), ("cap", 3)] "risk" "a"
      [("risk", "a"), ("cap", "b"), ("risk", "c")] [] "risk" 2).2.2.2.2
    (by decide)

/-- C8 counterexample: in PatientQueue.tsx, getAcuityColor has no case for
level 5, so a level-5 patient gets the same gray badge color as the
out-of-range fallback — level 5 does not get its own severity color there. -/
theorem acuity_color_level5_fallback :
    PatientQueue.getAcuityColor 5 = "bg-gray-500 text-white" ∧
    PatientQueue.getAcuityColor 5 = PatientQueue.getAcuityColor 0 ∧
    PatientQueue.getAcuityColor 5 = PatientQueue.getAcuityColor 99 :=
  ⟨rfl, rfl, rfl⟩

/-- C8 amended: getAcuityLabel gives each of levels 1 to 5 its own label,
level 1 labelled Resuscitation (the most severe); PatientDetailPanel's
getAcuityColor gives each of levels 1 to 5 its own color, all distinct from
the out-of-range fallback; PatientQueue's getAcuityColor does so only for
levels 1 to 4, and maps level 5 to the same gray as the fallback. -/
theorem acuity_rendering_levels :
    (∀ l1 ∈ ([1, 2, 3, 4, 5] : List Int), ∀ l2 ∈ ([1, 2, 3, 4, 5] : List Int),
      l1 ≠ l2 →
        PatientDetailPanel.getAcuityLabel l1 ≠ PatientDetailPanel.getAcuityLabel l2) ∧
    PatientDetailPanel.getAcuityLabel 1 = "Resuscitation" ∧
    (∀ l1 ∈ ([1, 2, 3, 4, 5] : List Int), ∀ l2 ∈ ([1, 2, 3, 4, 5] : List Int),
      l1 ≠ l2 →
        PatientDetailPanel.getAcuityColor l1 ≠ PatientDetailPanel.getAcuityColor l2) ∧
    (∀ l ∈ ([1, 2, 3, 4, 5] : List Int),
      PatientDetailPanel.getAcuityColor l ≠ PatientDetailPanel.getAcuityColor 0) ∧
    (∀ l1 ∈ ([1, 2, 3, 4] : List Int), ∀ l2 ∈ ([1, 2, 3, 4] : List Int),
      l1 ≠ l2 →
        PatientQueue.getAcuityColor l1 ≠ PatientQueue.getAcuityColor l2) ∧
    (∀ l ∈ ([1, 2, 3, 4] : List Int),
      PatientQueue.getAcuityColor l ≠ PatientQueue.getAcuityColor 0) ∧
    PatientQueue.getAcuityColor 5 = PatientQueue.getAcuityColor 0 := by
  refine ⟨?_, rfl, ?_, ?_, ?_, ?_, rfl⟩ <;> decide

/-- Witness for C8 amended at concrete levels. -/
theorem acuity_rendering_levels_witness :
    PatientDetailPanel.getAcuityLabel 1 ≠ PatientDetailPanel.getAcuityLabel 5 ∧
    PatientDetailPanel.getAcuityColor 5 ≠ PatientDetailPanel.getAcuityColor 0 ∧
    PatientQueue.getAcuityColor 1 ≠ PatientQueue.getAcuityColor 4 :=
  ⟨acuity_rendering_levels.1 1 (by decide) 5 (by decide) (by decide),
   acuity_rendering_levels.2.2.2.1 5 (by decide),
   acuity_rendering_levels.2.2.2.2.1 1 (by decide) 4 (by decide) (by decide)⟩

/-- C9: PatientQueue renders the patients sorted by risk score highest first
(missing risk scores count as 0), the rendered list is a permutation of the
input list (the sort happens on a spread copy, leaving the caller's array
unchanged), and a missing risk score reads as 0. -/
theorem patient_queue_sort (ps : List Patient) :
    List.Pairwise (fun a b => riskOf b ≤ riskOf a)
      (PatientQueue.sortedPatients ps) ∧
    (PatientQueue.sortedPatients ps).Perm ps ∧
    (∀ p : Patient, p.risk_score = none → riskOf p = 0) :=
  ⟨List.sorted_insertionSort PatientQueue.byRiskDesc ps,
   List.perm_insertionSort PatientQueue.byRiskDesc ps,
   fun p h => by simp [riskOf, h]⟩

/-- Witness for C9 on a concrete three-patient list. -/
theorem patient_queue_sort_witness :
    List.Pairwise (fun a b => riskOf b ≤ riskOf a)
      (PatientQueue.sortedPatients
        [⟨"a", some 10, false, 3⟩, ⟨"b", none, false, 2⟩, ⟨"c", some 90, true, 1⟩]) ∧
    (PatientQueue.sortedPatients
        [⟨"a", some 10, false, 3⟩, ⟨"b", none, false, 2⟩, ⟨"c", some 90, true, 1⟩]).Perm
      [⟨"a", some 10, false, 3⟩, ⟨"b", none, false, 2⟩, ⟨"c", some 90, true, 1⟩] ∧
    riskOf ⟨"b", none, false, 2⟩ = 0 :=
  have m := patient_queue_sort
    [⟨"a", some 10, false, 3⟩, ⟨"b", none, false, 2⟩, ⟨"c", some 90, true, 1⟩]
  ⟨m.1, m.2.1, m.2.2 ⟨"b", none, false, 2⟩ rfl⟩

/-- C10: the two dashboard components compute criticality identically, and a
patient is marked critical exactly when the is_critical flag is set or the
risk score (missing read as 0) is at least 80. -/
theorem is_critical_consistent (p : Patient) :
    PatientQueue.isCritical p = PatientDetailPanel.isCritical p ∧
    (PatientQueue.isCritical p = true ↔ p.is_critical = true ∨ 80 ≤ riskOf p) := by
  refine ⟨rfl, ?_⟩
  simp [PatientQueue.isCritical]
